import Mathlib

/-!
Verification of the two plugin adapters in this repository slice:

* `llmstack/processors/providers/localai/chat_completions.py` — the
  chat-completion processor `ChatCompletions.process`, and
* `llmstack/connections/handlers/junos_login.py` — the device-login
  connection handler `JunosLogin.activate`.

The Python code is shallowly embedded: pure computations become Lean
functions, the external clients (the LocalAI HTTP client and the Junos
device SDK) are modelled as explicitly supplied behaviours, raised
exceptions become `Except`-style error values, and the sequence of writes
to the host's output sink is recorded as an explicit event trace.
-/

namespace LLMStack

/-! ## JSON values and a model of Python's `json.loads`

`ChatCompletions.process` calls `json.loads` on each function definition's
`parameters` string and on the pydantic serialization of each chat message.
We model JSON values with numbers as exact decimals (`mantissa * 10 ^ exp10`),
and `json.loads` as a fuel-indexed recursive-descent parser over the standard
JSON grammar; `none` models a raised `JSONDecodeError`.
-/

inductive Json where
  | null
  | bool (b : Bool)
  | num (mantissa : Int) (exp10 : Int)
  | str (s : String)
  | arr (elems : List Json)
  | obj (members : List (String × Json))
deriving Repr

def isWs (c : Char) : Bool :=
  c = ' ' || c = '\t' || c = '\n' || c = '\r'

def skipWs : List Char → List Char
  | [] => []
  | c :: cs => if isWs c then skipWs cs else c :: cs

def hexVal (c : Char) : Option Nat :=
  if '0' ≤ c ∧ c ≤ '9' then some (c.toNat - '0'.toNat)
  else if 'a' ≤ c ∧ c ≤ 'f' then some (c.toNat - 'a'.toNat + 10)
  else if 'A' ≤ c ∧ c ≤ 'F' then some (c.toNat - 'A'.toNat + 10)
  else none

def digitVal (c : Char) : Option Nat :=
  if '0' ≤ c ∧ c ≤ '9' then some (c.toNat - '0'.toNat) else none

/-- Splits off the longest leading run of decimal digits. -/
def takeDigits : List Char → (List Nat × List Char)
  | [] => ([], [])
  | c :: cs =>
    match digitVal c with
    | some d => let (ds, r) := takeDigits cs; (d :: ds, r)
    | none => ([], c :: cs)

def digitsToNat (ds : List Nat) : Nat :=
  ds.foldl (fun a d => a * 10 + d) 0

/-- Parses the body of a JSON string literal (after the opening quote),
returning the decoded string and the input after the closing quote.
Fuel is a bound on the remaining input length. -/
def parseStringRest : Nat → List Char → Option (String × List Char)
  | 0, _ => none
  | _ + 1, [] => none
  | fuel + 1, c :: cs =>
    if c = '"' then some ("", cs)
    else if c = '\\' then
      match cs with
      | [] => none
      | e :: cs1 =>
        let esc : Option (Char × List Char) :=
          if e = '"' then some ('"', cs1)
          else if e = '\\' then some ('\\', cs1)
          else if e = '/' then some ('/', cs1)
          else if e = 'b' then some ('\x08', cs1)
          else if e = 'f' then some ('\x0c', cs1)
          else if e = 'n' then some ('\n', cs1)
          else if e = 'r' then some ('\x0d', cs1)
          else if e = 't' then some ('\t', cs1)
          else if e = 'u' then
            match cs1 with
            | a :: b :: c2 :: d :: rest =>
              match hexVal a, hexVal b, hexVal c2, hexVal d with
              | some ha, some hb, some hc, some hd =>
                some (Char.ofNat (((ha * 16 + hb) * 16 + hc) * 16 + hd), rest)
              | _, _, _, _ => none
            | _ => none
          else none
        match esc with
        | none => none
        | some (ch, rest) =>
          match parseStringRest fuel rest with
          | none => none
          | some (s, r) => some (⟨ch :: s.data⟩, r)
    else if c.toNat < 0x20 then none
    else
      match parseStringRest fuel cs with
      | none => none
      | some (s, r) => some (⟨c :: s.data⟩, r)

/-- Parses a JSON number (the strict grammar: optional minus, integer part
without leading zeros, optional fraction, optional exponent). -/
def parseNumber (cs : List Char) : Option (Json × List Char) :=
  let (neg, cs1) := match cs with
    | '-' :: r => (true, r)
    | _ => (false, cs)
  let (ids, cs2) := takeDigits cs1
  if ids.isEmpty then none
  else if ids.length > 1 && ids.headD 1 = 0 then none
  else
    let step2 : Option (List Nat × List Char) :=
      match cs2 with
      | '.' :: r =>
        let (fds, r2) := takeDigits r
        if fds.isEmpty then none else some (fds, r2)
      | _ => some ([], cs2)
    match step2 with
    | none => none
    | some (fds, cs3) =>
      let step3 : Option (Int × List Char) :=
        match cs3 with
        | e :: r =>
          if e = 'e' || e = 'E' then
            let (esign, r1) : Int × List Char := match r with
              | '+' :: rr => (1, rr)
              | '-' :: rr => (-1, rr)
              | _ => (1, r)
            let (eds, r2) := takeDigits r1
            if eds.isEmpty then none else some (esign * (digitsToNat eds : Int), r2)
          else some (0, cs3)
        | [] => some (0, [])
      match step3 with
      | none => none
      | some (ex, cs4) =>
        let mant : Int := (digitsToNat (ids ++ fds) : Int)
        let mant := if neg then -mant else mant
        some (.num mant (ex - fds.length), cs4)

mutual

/-- Parses one JSON value from the input (leading whitespace allowed). -/
def parseValue : Nat → List Char → Option (Json × List Char)
  | 0, _ => none
  | fuel + 1, cs =>
    match skipWs cs with
    | [] => none
    | c :: rest =>
      if c = 'n' then
        match rest with
        | 'u' :: 'l' :: 'l' :: r => some (.null, r)
        | _ => none
      else if c = 't' then
        match rest with
        | 'r' :: 'u' :: 'e' :: r => some (.bool true, r)
        | _ => none
      else if c = 'f' then
        match rest with
        | 'a' :: 'l' :: 's' :: 'e' :: r => some (.bool false, r)
        | _ => none
      else if c = '"' then
        match parseStringRest (rest.length + 1) rest with
        | none => none
        | some (s, r) => some (.str s, r)
      else if c = '[' then
        match skipWs rest with
        | ']' :: r => some (.arr [], r)
        | cs2 => parseElems fuel cs2 []
      else if c = '\x7b' then
        match skipWs rest with
        | '\x7d' :: r => some (.obj [], r)
        | cs2 => parseMembers fuel cs2 []
      else parseNumber (c :: rest)

/-- Parses the remaining elements of a non-empty JSON array. -/
def parseElems : Nat → List Char → List Json → Option (Json × List Char)
  | 0, _, _ => none
  | fuel + 1, cs, acc =>
    match parseValue fuel cs with
    | none => none
    | some (v, r) =>
      match skipWs r with
      | ',' :: r2 => parseElems fuel r2 (acc ++ [v])
      | ']' :: r2 => some (.arr (acc ++ [v]), r2)
      | _ => none

/-- Parses the remaining members of a non-empty JSON object. -/
def parseMembers : Nat → List Char → List (String × Json) → Option (Json × List Char)
  | 0, _, _ => none
  | fuel + 1, cs, acc =>
    match skipWs cs with
    | '"' :: r =>
      match parseStringRest (r.length + 1) r with
      | none => none
      | some (k, r1) =>
        match skipWs r1 with
        | ':' :: r2 =>
          match parseValue fuel r2 with
          | none => none
          | some (v, r3) =>
            match skipWs r3 with
            | ',' :: r4 => parseMembers fuel r4 (acc ++ [(k, v)])
            | '\x7d' :: r4 => some (.obj (acc ++ [(k, v)]), r4)
            | _ => none
        | _ => none
    | _ => none

end

/-- Model of Python's `json.loads`: parse one JSON document, reject trailing
non-whitespace; `none` models a raised `json.JSONDecodeError`. The fuel
`2 * length + 4` over-approximates the recursion depth (each unit of nesting
consumes at least one input character per two fuel units). -/
def jsonLoads (s : String) : Option Json :=
  match parseValue (2 * s.length + 4) s.data with
  | some (v, rest) => if (skipWs rest).isEmpty then some v else none
  | none => none

/-! ## Data model of `chat_completions.py`

Pydantic `Optional[T]` fields become `Option T`; declared defaults are kept
as Lean default field values. Python truthiness tests (`if self._config.base_url`,
`if system_message`, `if self._config.stream`) are made explicit via
`pyTruthyStr` / `pyTruthyBool`.
-/

inductive Role where
  | system
  | user
  | assistant
  | function
deriving Repr, DecidableEq

def Role.toStr : Role → String
  | .system => "system"
  | .user => "user"
  | .assistant => "assistant"
  | .function => "function"

structure FunctionCallResponse where
  name : Option String
  arguments : Option String
deriving Repr, DecidableEq

structure ChatMessage where
  role : Option Role := some .user
  content : Option String := some ""
  name : Option String := some ""
  function_call : Option FunctionCallResponse := none
deriving Repr, DecidableEq

structure FunctionCall where
  name : String := ""
  description : Option String := none
  parameters : Option String := none
deriving Repr, DecidableEq

structure ChatCompletionInput where
  system_message : Option String := some ""
  messages : List ChatMessage := [{}]
  functions : Option (List FunctionCall) := none
deriving Repr

structure ChatCompletionsOutput where
  choices : List ChatMessage := []
deriving Repr, DecidableEq

structure ChatCompletionsConfiguration where
  base_url : Option String := none
  model : String := "ggml-gpt4all-j"
  max_tokens : Option Int := some 1024
  temperature : Option Rat := some (7 / 10)
  stream : Option Bool := some false
  function_call : Option String := none
deriving Repr

/-- The two keys `process` reads from `self._env` (a Python dict;
`env.get(k)` is `none` when the key is absent). -/
structure Env where
  localai_base_url : Option String := none
  localai_api_key : Option String := none
deriving Repr

/-- Python truthiness of an optional string: `None` and `''` are falsy. -/
def pyTruthyStr : Option String → Bool
  | none => false
  | some s => s ≠ ""

/-- Python truthiness of an optional bool: `None` is falsy. -/
def pyTruthyBool : Option Bool → Bool
  | none => false
  | some b => b

/-- Base-URL resolution at the top of `process`:
`base_url = env.get("localai_base_url")`; `if self._config.base_url:
base_url = self._config.base_url`; `if not base_url: raise`.
`none` means the `Exception("Base URL is not set")` is raised. -/
def resolveBaseUrl (env : Env) (config : ChatCompletionsConfiguration) : Option String :=
  let base_url := env.localai_base_url
  let base_url := if pyTruthyStr config.base_url then config.base_url else base_url
  if pyTruthyStr base_url then base_url else none

/-- Serialization `json.loads(msg_entry.json())` of one pydantic
`ChatMessage`: the fields role, content, name, function_call carried through verbatim, with
`None` serialized as JSON null and the role enum as its string value. -/
def serializeChatMessage (m : ChatMessage) : Json :=
  let optStr : Option String → Json := fun o =>
    match o with
    | some s => .str s
    | none => .null
  .obj
    [("role", match m.role with
        | some r => .str r.toStr
        | none => .null),
     ("content", optStr m.content),
     ("name", optStr m.name),
     ("function_call", match m.function_call with
        | some fc => .obj [("name", optStr fc.name), ("arguments", optStr fc.arguments)]
        | none => .null)]

/-- The `chat_messages` list built in `process`:
`[{"role": "system", "content": system_message}] if system_message else []`
extended with `json.loads(msg_entry.json())` for each input message. -/
def buildChatMessages (system_message : Option String) (messages : List ChatMessage) : List Json :=
  (match system_message with
   | some s => if s ≠ "" then [Json.obj [("role", .str "system"), ("content", .str s)]] else []
   | none => []) ++ messages.map serializeChatMessage

/-- The external client's function-call descriptor
(`llmstack.common.blocks.llm.openai.FunctionCall`, imported as
`OpenAIFunctionCall`). -/
structure OpenAIFunctionCall where
  name : String
  description : Option String
  parameters : Json
deriving Repr

/-- Translation of one input `FunctionCall` inside the list comprehension:
`parameters=json.loads(function.parameters) if function.parameters is not
None else {}`; `none` means `json.loads` raised. -/
def translateFunction (f : FunctionCall) : Option OpenAIFunctionCall :=
  match f.parameters with
  | some s =>
    match jsonLoads s with
    | some j => some ⟨f.name, f.description, j⟩
    | none => none
  | none => some ⟨f.name, f.description, .obj []⟩

/-- The whole list comprehension over `self._input.functions`; the first
failing `json.loads` aborts it. -/
def translateFunctions : List FunctionCall → Option (List OpenAIFunctionCall)
  | [] => some []
  | f :: fs =>
    match translateFunction f, translateFunctions fs with
    | some o, some os => some (o :: os)
    | _, _ => none

/-- Embedding of `openai_functions = None; if self._input.functions is not
None: openai_functions = [...]`. The outer `none` means an exception was raised. -/
def translateOptFunctions : Option (List FunctionCall) → Option (Option (List OpenAIFunctionCall))
  | none => some none
  | some fs =>
    match translateFunctions fs with
    | some os => some (some os)
    | none => none

/-! ## The external LLM client and the output sink

`LocalAIChatCompletionsAPIProcessor` lives in
`llmstack.common.blocks.llm.localai`, outside this repository slice; its
behaviour on a given call is supplied as data. A batch call (`process`)
either returns one result or raises; a streaming call (`process_iter`)
yields a finite sequence of partial results and may then raise instead of
terminating cleanly. Each result exposes `.choices`.

Writes to `self._output_stream` and the terminal `finalize()` are recorded
as an event trace, in order.
-/

structure LocalAIOutput where
  choices : List ChatMessage
deriving Repr

structure ClientBehavior where
  batchResult : Except String LocalAIOutput
  streamResults : List LocalAIOutput
  streamError : Option String

/-- Exceptions `process` can raise (or let propagate). -/
inductive PyError where
  | baseUrlNotSet
  | jsonDecodeError
  | clientError (msg : String)
deriving Repr, DecidableEq

inductive Event where
  | write (out : ChatCompletionsOutput)
  | finalize
deriving Repr, DecidableEq

/-- Which external-client entry point was invoked, with the resolved base URL. -/
inductive ClientCall where
  | batch (base_url : String)
  | stream (base_url : String)
deriving Repr, DecidableEq

structure ProcessTrace where
  clientCalls : List ClientCall
  events : List Event
  result : Except PyError Unit
deriving Repr

/-- Shallow embedding of `ChatCompletions.process`:
resolve the base URL (raise if falsy), build `chat_messages`, translate the
function definitions (a bad `parameters` string raises before any client
call), then dispatch on `self._config.stream`: streaming writes one
`ChatCompletionsOutput` per partial result in arrival order and finalizes
after the generator is exhausted (a generator error propagates after the
writes made so far, skipping `finalize`); batch makes one blocking call,
writes once and finalizes (a client error propagates with no write). -/
def process (env : Env) (config : ChatCompletionsConfiguration)
    (input : ChatCompletionInput) (client : ClientBehavior) : ProcessTrace :=
  match resolveBaseUrl env config with
  | none => ⟨[], [], .error .baseUrlNotSet⟩
  | some base_url =>
    match translateOptFunctions input.functions with
    | none => ⟨[], [], .error .jsonDecodeError⟩
    | some _openai_functions =>
      if pyTruthyBool config.stream then
        let writes := client.streamResults.map fun r => Event.write ⟨r.choices⟩
        match client.streamError with
        | some e => ⟨[.stream base_url], writes, .error (.clientError e)⟩
        | none => ⟨[.stream base_url], writes ++ [Event.finalize], .ok ()⟩
      else
        match client.batchResult with
        | .error e => ⟨[.batch base_url], [], .error (.clientError e)⟩
        | .ok r => ⟨[.batch base_url], [Event.write ⟨r.choices⟩, Event.finalize], .ok ()⟩

/-! ## Data model of `junos_login.py`

`Connection` and `ConnectionStatus` come from `llmstack.connections.models`,
which is not part of this repository slice. Modelled from the spec: a
Connection carries a `configuration` holding `device_address`, `username`,
`password`, and a mutable `status` in {ACTIVE, FAILED, ...}. The external
device client (`jnpr.junos.Device(...).open()` then `.close()`) is supplied
as a behaviour: `Except.ok ()` when the probe succeeds, `Except.error msg`
when any exception with string representation `msg` is raised inside the
`try` block. -/

inductive ConnectionStatus where
  | CREATED
  | ACTIVE
  | FAILED
deriving Repr, DecidableEq

/-- Modelled from the spec: the connection's `configuration` mapping, which
per the spec holds `device_address`, `username`, `password` (the model
`llmstack.connections.models.Connection` is not under src/). -/
structure ConnectionConfiguration where
  device_address : String
  username : String
  password : String
deriving Repr, DecidableEq

structure Connection where
  configuration : ConnectionConfiguration
  status : ConnectionStatus
deriving Repr, DecidableEq

/-- One item yielded by `activate`: either the Connection itself or the
failure dict `{'error': str(e), 'connection': connection}`. -/
inductive ActivateResult where
  | conn (c : Connection)
  | failure (error : String) (connection : Connection)
deriving Repr, DecidableEq

/-- Shallow embedding of `JunosLogin.activate`: a single attempt against the
device client; on success the connection's status is set to ACTIVE and the
connection is yielded; on any exception the status is set to FAILED and the
failure dict is yielded. The returned list is the full sequence of yields;
`activate` itself never raises. -/
def activate (connection : Connection) (device : Except String Unit) : List ActivateResult :=
  match device with
  | .ok _ => [.conn { connection with status := .ACTIVE }]
  | .error e => [.failure e { connection with status := .FAILED }]

/-- Modelled from the spec: the message list the external client sends out.
`LocalAIChatCompletionsAPIProcessor` (module `llmstack.common.blocks.llm.localai`)
is not under src/; per the spec, the outgoing message list is the system
entry, when present, prepended before the user-supplied messages serialized
verbatim (role, content, name, function_call carried through). -/
def clientOutgoingMessages (system_message : Option String)
    (messages : List ChatMessage) : List Json :=
  (if pyTruthyStr system_message then
    [Json.obj [("role", .str "system"), ("content", .str (system_message.getD ""))]]
   else []) ++ messages.map serializeChatMessage

/-! ## Theorems -/

/-- Claim C1: with a non-empty system message, the message list passed to the
external LLM client is the system entry prepended before the user-supplied
messages serialized verbatim; it coincides with the `chat_messages` list
built in `process`. -/
theorem C1_system_message_prepended (sys : String) (hsys : sys ≠ "")
    (messages : List ChatMessage) :
    clientOutgoingMessages (some sys) messages =
      Json.obj [("role", .str "system"), ("content", .str sys)]
        :: messages.map serializeChatMessage ∧
    clientOutgoingMessages (some sys) messages = buildChatMessages (some sys) messages := by
  constructor
  · simp [clientOutgoingMessages, pyTruthyStr, hsys]
  · simp [clientOutgoingMessages, buildChatMessages, pyTruthyStr, hsys]

/-- Claim C1, witnessed at `system_message = "You are helpful"` and the single
user message `"hi"`. -/
theorem C1_witness :
    clientOutgoingMessages (some "You are helpful")
        [{ role := some .user, content := some "hi" }] =
      [Json.obj [("role", .str "system"), ("content", .str "You are helpful")],
       Json.obj [("role", .str "user"), ("content", .str "hi"),
                 ("name", .str ""), ("function_call", Json.null)]] :=
  ((C1_system_message_prepended "You are helpful" (by decide)
      [{ role := some .user, content := some "hi" }]).1).trans rfl

/-- Claim C2: the adapter config's `base_url` overrides the environment's
`localai_base_url` default whenever it is truthy; otherwise the environment
default is used; and whenever the resolution comes up empty, `process` raises
the configuration error with no client call, no write and no finalize,
whatever the external client would have done. -/
theorem C2_base_url_resolution (env : Env) (config : ChatCompletionsConfiguration) :
    (pyTruthyStr config.base_url = true →
      resolveBaseUrl env config = config.base_url) ∧
    (pyTruthyStr config.base_url = false →
      resolveBaseUrl env config =
        (if pyTruthyStr env.localai_base_url then env.localai_base_url else none)) ∧
    (resolveBaseUrl env config = none →
      ∀ (input : ChatCompletionInput) (client : ClientBehavior),
        process env config input client = ⟨[], [], .error .baseUrlNotSet⟩) := by
  refine ⟨fun h => ?_, fun h => ?_, fun h input client => ?_⟩
  · simp [resolveBaseUrl, h]
  · simp [resolveBaseUrl, h]
  · simp [process, h]

/-- Claim C2, witnessed: with no base URL in config or environment, `process`
fails with the configuration error and an empty trace, even though the
supplied client would have raised a different error if called. -/
theorem C2_witness :
    process {} {} {}
        { batchResult := .error "connection refused", streamResults := [],
          streamError := some "connection refused" } =
      ⟨[], [], .error .baseUrlNotSet⟩ :=
  (C2_base_url_resolution {} {}).2.2 rfl {}
    { batchResult := .error "connection refused", streamResults := [],
      streamError := some "connection refused" }

/-- Claim C10: the config override is decided by truthiness, not presence:
an empty-string config `base_url` does not override the environment default,
and when the environment default is also falsy, `process` raises the
configuration error. -/
theorem C10_empty_base_url_truthiness (env : Env)
    (config : ChatCompletionsConfiguration) (hempty : config.base_url = some "") :
    (pyTruthyStr env.localai_base_url = true →
      resolveBaseUrl env config = env.localai_base_url) ∧
    (pyTruthyStr env.localai_base_url = false →
      resolveBaseUrl env config = none ∧
      ∀ (input : ChatCompletionInput) (client : ClientBehavior),
        process env config input client = ⟨[], [], .error .baseUrlNotSet⟩) := by
  have hcfg : pyTruthyStr config.base_url = false := by
    simp [hempty, pyTruthyStr]
  refine ⟨fun h => ?_, fun h => ?_⟩
  · simp [resolveBaseUrl, hcfg, h]
  · have hres : resolveBaseUrl env config = none := by
      simp [resolveBaseUrl, hcfg, h]
    exact ⟨hres, fun input client => by simp [process, hres]⟩

/-- Claim C10, witnessed: with `base_url = some ""` in config, the environment
default `"http://env:8080"` wins; and with an empty environment too, `process`
raises the configuration error. -/
theorem C10_witness :
    resolveBaseUrl { localai_base_url := some "http://env:8080" }
        { base_url := some "" } = some "http://env:8080" ∧
    process {} { base_url := some "" } {}
        { batchResult := .error "x", streamResults := [], streamError := none } =
      ⟨[], [], .error .baseUrlNotSet⟩ :=
  ⟨(C10_empty_base_url_truthiness { localai_base_url := some "http://env:8080" }
      { base_url := some "" } rfl).1 rfl,
   ((C10_empty_base_url_truthiness {} { base_url := some "" } rfl).2 rfl).2 {}
      { batchResult := .error "x", streamResults := [], streamError := none }⟩

/-- Claim C3: with `stream` truthy, when the external client's streaming call
yields a finite sequence of partial results and then terminates cleanly,
`process` makes one streaming client call and writes exactly one
`ChatCompletionsOutput` per partial result, wrapping its `choices`, in
arrival order, finalizing the sink only after the sequence is exhausted. -/
theorem C3_streaming_writes_in_order (env : Env)
    (config : ChatCompletionsConfiguration) (input : ChatCompletionInput)
    (client : ClientBehavior) (u : String) (ofs : Option (List OpenAIFunctionCall))
    (hstream : pyTruthyBool config.stream = true)
    (hurl : resolveBaseUrl env config = some u)
    (hfns : translateOptFunctions input.functions = some ofs)
    (herr : client.streamError = none) :
    process env config input client =
      ⟨[.stream u],
       (client.streamResults.map fun r => Event.write ⟨r.choices⟩) ++ [Event.finalize],
       .ok ()⟩ := by
  simp [process, hurl, hfns, hstream, herr]

/-- Claim C3, witnessed with three partial results: exactly three writes, in
arrival order, then the finalize. -/
theorem C3_witness :
    process { localai_base_url := some "http://localai:8080" }
        { stream := some true } {}
        { batchResult := .error "unused",
          streamResults :=
            [⟨[{ content := some "a" }]⟩, ⟨[{ content := some "b" }]⟩,
             ⟨[{ content := some "c" }]⟩],
          streamError := none } =
      ⟨[.stream "http://localai:8080"],
       [.write ⟨[{ content := some "a" }]⟩, .write ⟨[{ content := some "b" }]⟩,
        .write ⟨[{ content := some "c" }]⟩, .finalize],
       .ok ()⟩ :=
  (C3_streaming_writes_in_order { localai_base_url := some "http://localai:8080" }
      { stream := some true } {}
      { batchResult := .error "unused",
        streamResults :=
          [⟨[{ content := some "a" }]⟩, ⟨[{ content := some "b" }]⟩,
           ⟨[{ content := some "c" }]⟩],
        streamError := none }
      "http://localai:8080" none rfl rfl rfl rfl).trans rfl

/-- Claim C4: with `stream` falsy, `process` makes a single blocking client
call, writes exactly one `ChatCompletionsOutput` wrapping the result's
`choices`, and then finalizes the sink; nothing follows the finalize in the
event trace. -/
theorem C4_batch_single_write (env : Env)
    (config : ChatCompletionsConfiguration) (input : ChatCompletionInput)
    (client : ClientBehavior) (u : String) (ofs : Option (List OpenAIFunctionCall))
    (r : LocalAIOutput)
    (hstream : pyTruthyBool config.stream = false)
    (hurl : resolveBaseUrl env config = some u)
    (hfns : translateOptFunctions input.functions = some ofs)
    (hres : client.batchResult = .ok r) :
    process env config input client =
      ⟨[.batch u], [Event.write ⟨r.choices⟩, Event.finalize], .ok ()⟩ := by
  simp [process, hurl, hfns, hstream, hres]

/-- Claim C4, witnessed: one write wrapping the batch result's choices, then
the finalize. -/
theorem C4_witness :
    process { localai_base_url := some "http://localai:8080" } {} {}
        { batchResult := .ok ⟨[{ role := some .assistant, content := some "hello" }]⟩,
          streamResults := [], streamError := none } =
      ⟨[.batch "http://localai:8080"],
       [.write ⟨[{ role := some .assistant, content := some "hello" }]⟩, .finalize],
       .ok ()⟩ :=
  C4_batch_single_write { localai_base_url := some "http://localai:8080" } {} {}
    { batchResult := .ok ⟨[{ role := some .assistant, content := some "hello" }]⟩,
      streamResults := [], streamError := none }
    "http://localai:8080" none ⟨[{ role := some .assistant, content := some "hello" }]⟩
    rfl rfl rfl rfl

/-- Claim C9: an error raised by the external LLM client during the batch or
the streaming call is neither caught nor retried by `process`: the same
error propagates as the result (after the writes already made, with no
finalize); the device-login adapter, by contrast, converts any device
exception into a yielded failure record and never propagates. -/
theorem C9_client_errors_propagate (env : Env)
    (config : ChatCompletionsConfiguration) (input : ChatCompletionInput)
    (client : ClientBehavior) (u : String) (ofs : Option (List OpenAIFunctionCall))
    (hurl : resolveBaseUrl env config = some u)
    (hfns : translateOptFunctions input.functions = some ofs) :
    (∀ e, pyTruthyBool config.stream = false → client.batchResult = .error e →
      process env config input client =
        ⟨[.batch u], [], .error (.clientError e)⟩) ∧
    (∀ e, pyTruthyBool config.stream = true → client.streamError = some e →
      process env config input client =
        ⟨[.stream u],
         client.streamResults.map fun r => Event.write ⟨r.choices⟩,
         .error (.clientError e)⟩) ∧
    (∀ (c : Connection) (msg : String),
      activate c (.error msg) = [.failure msg { c with status := .FAILED }]) := by
  refine ⟨fun e hstream hres => ?_, fun e hstream herr => ?_, fun c msg => rfl⟩
  · simp [process, hurl, hfns, hstream, hres]
  · simp [process, hurl, hfns, hstream, herr]

/-- Claim C9, witnessed in both modes: the batch error `"502 bad gateway"`
propagates unchanged, and a streaming error after two partial results
propagates after the two writes, with no finalize. -/
theorem C9_witness :
    process { localai_base_url := some "http://localai:8080" } {} {}
        { batchResult := .error "502 bad gateway", streamResults := [],
          streamError := none } =
      ⟨[.batch "http://localai:8080"], [], .error (.clientError "502 bad gateway")⟩ ∧
    process { localai_base_url := some "http://localai:8080" }
        { stream := some true } {}
        { batchResult := .error "unused",
          streamResults := [⟨[{ content := some "a" }]⟩, ⟨[{ content := some "b" }]⟩],
          streamError := some "connection reset" } =
      ⟨[.stream "http://localai:8080"],
       [.write ⟨[{ content := some "a" }]⟩, .write ⟨[{ content := some "b" }]⟩],
       .error (.clientError "connection reset")⟩ :=
  ⟨(C9_client_errors_propagate { localai_base_url := some "http://localai:8080" }
      {} {}
      { batchResult := .error "502 bad gateway", streamResults := [],
        streamError := none }
      "http://localai:8080" none rfl rfl).1 "502 bad gateway" rfl rfl,
   ((C9_client_errors_propagate { localai_base_url := some "http://localai:8080" }
      { stream := some true } {}
      { batchResult := .error "unused",
        streamResults := [⟨[{ content := some "a" }]⟩, ⟨[{ content := some "b" }]⟩],
        streamError := some "connection reset" }
      "http://localai:8080" none rfl rfl).2.1 "connection reset" rfl rfl).trans rfl⟩

/-- What the claimed translation says of one function definition and its
descriptor: name and description carried over, `parameters` the parsed JSON
value when the string is present, the empty object when it is `None`. -/
def FunctionTranslationSpec (f : FunctionCall) (o : OpenAIFunctionCall) : Prop :=
  o.name = f.name ∧ o.description = f.description ∧
  (f.parameters = none → o.parameters = Json.obj []) ∧
  ∀ s, f.parameters = some s → jsonLoads s = some o.parameters

theorem translateFunction_spec (f : FunctionCall) (o : OpenAIFunctionCall)
    (h : translateFunction f = some o) : FunctionTranslationSpec f o := by
  unfold translateFunction at h
  cases hp : f.parameters with
  | none =>
    rw [hp] at h
    have h2 : some (⟨f.name, f.description, Json.obj []⟩ : OpenAIFunctionCall) = some o := h
    cases h2
    exact ⟨rfl, rfl, (fun _ => rfl), (fun s hs => by rw [hp] at hs; cases hs)⟩
  | some s =>
    rw [hp] at h
    have h2 : (match jsonLoads s with
        | some j => some (⟨f.name, f.description, j⟩ : OpenAIFunctionCall)
        | none => none) = some o := h
    cases hj : jsonLoads s with
    | none => rw [hj] at h2; exact Option.noConfusion h2
    | some j =>
      rw [hj] at h2
      have h3 : some (⟨f.name, f.description, j⟩ : OpenAIFunctionCall) = some o := h2
      cases h3
      exact ⟨rfl, rfl, (fun hn => by rw [hp] at hn; cases hn),
        (fun s2 hs2 => by rw [hp] at hs2; cases hs2; exact hj)⟩

/-- Claim C5: whenever the list comprehension over the input's function
definitions succeeds, it translates each definition, in order, into a
descriptor carrying the name and description, whose `parameters` is the JSON
value parsed from the definition's `parameters` string when present and the
empty object when `None`. -/
theorem C5_function_parameters_translation (fs : List FunctionCall)
    (out : List OpenAIFunctionCall) (h : translateFunctions fs = some out) :
    List.Forall₂ FunctionTranslationSpec fs out := by
  induction fs generalizing out with
  | nil =>
    have h2 : some ([] : List OpenAIFunctionCall) = some out := h
    cases h2
    exact List.Forall₂.nil
  | cons f fs ih =>
    simp only [translateFunctions] at h
    cases hf : translateFunction f with
    | none => rw [hf] at h; exact Option.noConfusion h
    | some o =>
      rw [hf] at h
      cases hfs : translateFunctions fs with
      | none => rw [hfs] at h; exact Option.noConfusion h
      | some os =>
        rw [hfs] at h
        have h2 : some (o :: os) = some out := h
        cases h2
        exact List.Forall₂.cons (translateFunction_spec f o hf) (ih os hfs)

/-- Claim C5, witnessed: `parameters="\x7b\"a\":1\x7d"` translates to the
object with a = 1, and `parameters=None` translates to the empty object. -/
theorem C5_witness :
    List.Forall₂ FunctionTranslationSpec
      [{ name := "get_weather", parameters := some "\x7b\"a\":1\x7d" },
       { name := "noop" }]
      [⟨"get_weather", none, Json.obj [("a", Json.num 1 0)]⟩,
       ⟨"noop", none, Json.obj []⟩] :=
  C5_function_parameters_translation _ _ rfl

theorem translateFunctions_fail_of_bad (fs : List FunctionCall)
    (f : FunctionCall) (hf : f ∈ fs) (s : String) (hs : f.parameters = some s)
    (hbad : jsonLoads s = none) : translateFunctions fs = none := by
  induction fs with
  | nil => cases hf
  | cons g gs ih =>
    cases hf with
    | head =>
      have hg : translateFunction f = none := by simp [translateFunction, hs, hbad]
      simp [translateFunctions, hg]
    | tail _ hmem =>
      cases htg : translateFunction g <;>
        simp [translateFunctions, ih hmem, htg]

/-- Claim C6: when a function definition's `parameters` string is not valid
JSON, `process` raises the parse error with no client call, no write and no
finalize, whatever the external client would have done. -/
theorem C6_invalid_parameters_parse_error (env : Env)
    (config : ChatCompletionsConfiguration) (input : ChatCompletionInput)
    (client : ClientBehavior) (fs : List FunctionCall) (f : FunctionCall)
    (s u : String)
    (hfs : input.functions = some fs) (hf : f ∈ fs)
    (hs : f.parameters = some s) (hbad : jsonLoads s = none)
    (hurl : resolveBaseUrl env config = some u) :
    process env config input client = ⟨[], [], .error .jsonDecodeError⟩ := by
  have hnone : translateOptFunctions input.functions = none := by
    simp [hfs, translateOptFunctions,
      translateFunctions_fail_of_bad fs f hf s hs hbad]
  simp [process, hurl, hnone]

/-- Claim C6, witnessed: the lone opening brace is not valid JSON, and
`process` raises the parse error with an empty trace, even though the
supplied client was ready to answer. -/
theorem C6_witness :
    process { localai_base_url := some "http://localai:8080" } {}
        { functions := some [{ name := "bad", parameters := some "\x7b" }] }
        { batchResult := .ok ⟨[]⟩, streamResults := [], streamError := none } =
      ⟨[], [], .error .jsonDecodeError⟩ :=
  C6_invalid_parameters_parse_error
    { localai_base_url := some "http://localai:8080" } {}
    { functions := some [{ name := "bad", parameters := some "\x7b" }] }
    { batchResult := .ok ⟨[]⟩, streamResults := [], streamError := none }
    [{ name := "bad", parameters := some "\x7b" }]
    { name := "bad", parameters := some "\x7b" }
    "\x7b" "http://localai:8080" rfl (List.Mem.head _) rfl rfl rfl

/-- Claim C7 as stated is false: the error message in the failure record is
`str(e)`, and an exception whose string representation is empty yields an
empty — hence not non-empty — error message. -/
theorem C7_counterexample :
    activate { configuration := ⟨"localhost", "admin", "pw"⟩, status := .CREATED }
        (.error "") =
      [.failure ""
        { configuration := ⟨"localhost", "admin", "pw"⟩, status := .FAILED }] ∧
    ¬("" : String) ≠ "" :=
  ⟨rfl, fun h => h rfl⟩

/-- Claim C7 (amended): when the device client raises, the exception is
caught — `activate` yields, never raises — the connection's status is set to
FAILED in place, and exactly one failure record is yielded, whose error is
the exception's string representation (possibly empty) and whose connection
is the updated Connection. -/
theorem C7_failure_record (c : Connection) (e : String) :
    activate c (.error e) = [.failure e { c with status := .FAILED }] := rfl

/-- Claim C8: when the device client opens and closes the session without
raising, `activate` yields exactly one result: the same Connection with its
status set to ACTIVE (configuration untouched). -/
theorem C8_success_yields_active (c : Connection) :
    activate c (.ok ()) = [.conn { c with status := .ACTIVE }] := rfl

end LLMStack
